import Mathlib

/-!
Shallow embedding of `planetPosition.js` (Kepler solver and planet position
calculator) over exact real arithmetic, together with proofs checking the
natural-language specification against the code.

JavaScript numbers are modelled as `JsNumber` (`nan` or an exact real); the
floating-point rounding of individual operations is idealised away, but the
NaN propagation and comparison semantics, the truncated-division remainder
`%`, `Math.round`, and the untyped option-dictionary lookups are modelled
faithfully.
-/

open Classical

/-- Tolerance used by the Kepler solver (`var tol = 1.0e-6;`). -/
noncomputable def tol : ℝ := 1.0e-6

/-- Initial state of the Newton loop in `keplersEq`: `y = x + Math.sin(x)`
paired with the sentinel `diff = 100000`. -/
noncomputable def keplerInit (x : ℝ) : ℝ × ℝ := (x + Real.sin x, 100000)

/-- One iteration of the loop body of `keplersEq`:
`d_x = x - (y - c*sin y); d_y = d_x/(1 - c*cos y); y += d_y; diff = d_y`. -/
noncomputable def keplerStep (x c : ℝ) (s : ℝ × ℝ) : ℝ × ℝ :=
  let d_x := x - (s.1 - c * Real.sin s.1)
  let d_y := d_x / (1 - c * Real.cos s.1)
  (s.1 + d_y, d_y)

/-- State of the `keplersEq` loop after `n` executions of the body. -/
noncomputable def keplerIter (x c : ℝ) : ℕ → ℝ × ℝ
  | 0 => keplerInit x
  | n + 1 => keplerStep x c (keplerIter x c n)

/-- The `while(Math.abs(diff)>tol)` loop of `keplersEq` exits after some
number of iterations. -/
def KeplerHalts (x c : ℝ) : Prop := ∃ n, |(keplerIter x c n).2| ≤ tol

/-- The value of `planetPosition.keplersEq(x, c)`: the `y` component of the
loop state at the first iteration count whose step `diff` satisfies
`|diff| <= tol` (when the loop never exits this is the junk value at
`sInf ∅ = 0`; the JavaScript loop does not return at all there). -/
noncomputable def keplersEq (x c : ℝ) : ℝ :=
  (keplerIter x c (sInf {n | |(keplerIter x c n).2| ≤ tol})).1

/-- `planetPosition.getJulianFromUnix(unixMillisecs)`. -/
noncomputable def getJulianFromUnix (unixMillisecs : ℝ) : ℝ :=
  unixMillisecs / 86400000 + 2440587.5

/-- JavaScript's `Math.trunc` (rounding toward zero), used to model the
sign-of-dividend remainder operator `%`. -/
noncomputable def jsTrunc (x : ℝ) : ℤ := if 0 ≤ x then ⌊x⌋ else ⌈x⌉

/-- JavaScript's `%` on finite doubles with a nonzero divisor:
`a % b = a - b * trunc(a / b)`, whose result takes the sign of the dividend. -/
noncomputable def jsRem (a b : ℝ) : ℝ := a - b * (jsTrunc (a / b) : ℝ)

/-- The wrap `M = ((M + Math.PI) % (2*Math.PI)) - Math.PI` applied by
`getPos` to the mean anomaly. -/
noncomputable def wrapM (M : ℝ) : ℝ := jsRem (M + Real.pi) (2 * Real.pi) - Real.pi

/-- A JavaScript number: NaN or a finite value (infinities are not needed by
any claim and are omitted from the model). -/
inductive JsNumber where
  | nan : JsNumber
  | val : ℝ → JsNumber

/-- `Math.round`: round half toward positive infinity; `Math.round(NaN)` is
NaN. -/
noncomputable def jsRound : JsNumber → JsNumber
  | .nan => .nan
  | .val x => .val ((⌊x + 1 / 2⌋ : ℤ) : ℝ)

/-- Subtraction on JavaScript numbers (NaN propagates). -/
noncomputable def jsSub : JsNumber → JsNumber → JsNumber
  | .val a, .val b => .val (a - b)
  | _, _ => .nan

/-- `Math.abs` on JavaScript numbers (NaN propagates). -/
noncomputable def jsAbs : JsNumber → JsNumber
  | .nan => .nan
  | .val a => .val |a|

/-- The comparison `a > b` on JavaScript numbers: false whenever either
operand is NaN. -/
def jsGt : JsNumber → JsNumber → Prop
  | .val a, .val b => b < a
  | _, _ => False

/-- The comparison `a < b` on JavaScript numbers: false whenever either
operand is NaN. -/
def jsLt : JsNumber → JsNumber → Prop
  | .val a, .val b => a < b
  | _, _ => False

/-- The comparison `a >= b` on JavaScript numbers: false whenever either
operand is NaN. -/
def jsGe : JsNumber → JsNumber → Prop
  | .val a, .val b => b ≤ a
  | _, _ => False

/-- The `planet` argument of `getPos`: a number (possibly NaN), a string, or
a value of any other type. -/
inductive JsPlanetArg where
  | num : JsNumber → JsPlanetArg
  | str : String → JsPlanetArg
  | other : JsPlanetArg

/-- The four `throw Error(...)` sites of the planet validation in `getPos`. -/
inductive JsError where
  | fractionalIndex : JsError
  | indexOutOfRange : JsError
  | unknownPlanetName : JsError
  | invalidPlanetType : JsError
deriving DecidableEq

/-- The spec's `InvalidPlanetIndex` error kind covers both numeric-argument
throw sites of the source. -/
def IsInvalidPlanetIndex (e : JsError) : Prop :=
  e = JsError.fractionalIndex ∨ e = JsError.indexOutOfRange

/-- `var planet_names = ['mercury', ..., 'neptune'];`. -/
def planet_names : List String :=
  ["mercury", "venus", "earth", "mars", "jupiter", "saturn", "uranus", "neptune"]

/-- The planet-argument validation of `getPos` (lines 116-140): numeric
arguments are rounded and checked for fractionality (tolerance 1e-4) and
range, strings are looked up in `planet_names`, anything else is rejected.
The returned value is the JavaScript number stored in `planet_idx`. -/
noncomputable def resolvePlanet : JsPlanetArg → Except JsError JsNumber
  | .num n =>
      let planet_idx := jsRound n
      if jsGt (jsAbs (jsSub planet_idx n)) (.val 0.0001) then
        .error .fractionalIndex
      else if jsLt planet_idx (.val 0) ∨ jsGe planet_idx (.val 8) then
        .error .indexOutOfRange
      else
        .ok planet_idx
  | .str s =>
      match planet_names.findIdx? (fun nm => s == nm) with
      | some i => .ok (.val i)
      | none => .error .unknownPlanetName
  | .other => .error .invalidPlanetType

/-- A JavaScript options dictionary, modelled as what bracket lookup
observes: `d k = some b` when `options[k]` is a (boolean) value distinct
from `undefined`, and `d k = none` when the lookup yields `undefined`. -/
def JsDict : Type := String → Option Bool

/-- The string a property key coerces to when the lookup subscript is the
value `undefined`: `options[unix_time]` with `unix_time` still uninitialized
reads the property literally named `"undefined"`. -/
def undefinedKey : String := "undefined"

/-- The option-reading prologue of `getPos` (lines 69-96). Each of the three
probes subscripts `options` with a declared-but-uninitialized variable
(`options[unix_time]`, `options[icrf]`, `options[circular]`), so each reads
the property named `"undefined"`. Returns `(unix_time, icrf, circular)`. -/
def getToggles : Option JsDict → Bool × Bool × Bool
  | none => (false, false, false)
  | some o => ((o undefinedKey).isSome, (o undefinedKey).isSome, (o undefinedKey).isSome)

/-- The coefficient table `parameters` (lines 99-112), one row per planet:
`a, e, I, L, ϖ, Ω` at J2000 followed by their per-century rates. -/
noncomputable def parameters : Fin 8 → Fin 12 → ℝ :=
  ![![0.38709927, 0.20563593, 7.00497902, 252.25032350, 77.45779628, 48.33076593,
      0.00000037, 0.00001906, -0.00594749, 149472.67411175, 0.16047689, -0.12534081],
    ![0.72333566, 0.00677672, 3.39467605, 181.97909950, 131.60246718, 76.67984255,
      0.00000390, -0.00004107, -0.00078890, 58517.81538729, 0.00268329, -0.27769418],
    ![1.00000261, 0.01671123, -0.00001531, 100.46457166, 102.93768193, 0.0,
      0.00000562, -0.00004392, -0.01294668, 35999.37244981, 0.32327364, 0.0],
    ![1.52371034, 0.09339410, 1.84969142, -4.55343205, -23.94362959, 49.55953891,
      0.00001847, 0.00007882, -0.00813131, 19140.30268499, 0.44441088, -0.29257343],
    ![5.20288700, 0.04838624, 1.30439695, 34.39644051, 14.72847983, 100.47390909,
      -0.00011607, -0.00013253, -0.00183714, 3034.74612775, 0.21252668, 0.20469106],
    ![9.53667594, 0.05386179, 2.48599187, 49.95424423, 92.59887831, 113.66242448,
      -0.00125060, -0.00050991, 0.00193609, 1222.49362201, -0.41897216, -0.28867794],
    ![19.18916464, 0.04725744, 0.77263783, 313.23810451, 170.95427630, 74.01692503,
      -0.00196176, -0.00004397, -0.00242939, 428.48202785, 0.40805281, 0.04240589],
    ![30.06992276, 0.00859048, 1.77004347, -55.12002969, 44.96476227, 131.78422574,
      0.00026291, 0.00005105, 0.00035372, 218.45945325, -0.32241464, -0.00508664]]

/-- The centuries-since-J2000 variable `T` of `getPos` (lines 144-150):
the unix-time branch first multiplies the caller's `t` by 1000. -/
noncomputable def computeT (unix_time : Bool) (t : ℝ) : ℝ :=
  if unix_time then (getJulianFromUnix (t * 1000) - 2451544.5) / 36525
  else (t - 2000) / 100

/-- Evaluated semi-major axis `a` (line 153). -/
noncomputable def aOf (idx : Fin 8) (T : ℝ) : ℝ := parameters idx 0 + T * parameters idx 6

/-- Evaluated eccentricity `e` (line 154). -/
noncomputable def eOf (idx : Fin 8) (T : ℝ) : ℝ := parameters idx 1 + T * parameters idx 7

/-- Evaluated inclination `I` in radians (line 155). -/
noncomputable def iOf (idx : Fin 8) (T : ℝ) : ℝ :=
  (parameters idx 2 + T * parameters idx 8) * Real.pi / 180

/-- Evaluated mean longitude `l` in radians (line 156). -/
noncomputable def lOf (idx : Fin 8) (T : ℝ) : ℝ :=
  (parameters idx 3 + T * parameters idx 9) * Real.pi / 180

/-- Evaluated longitude of perihelion `w_line` in radians (line 157). -/
noncomputable def pomOf (idx : Fin 8) (T : ℝ) : ℝ :=
  (parameters idx 4 + T * parameters idx 10) * Real.pi / 180

/-- Evaluated longitude of ascending node `om` in radians (line 158). -/
noncomputable def omOf (idx : Fin 8) (T : ℝ) : ℝ :=
  (parameters idx 5 + T * parameters idx 11) * Real.pi / 180

/-- The raw (pre-wrap) mean anomaly `M = l - w_line` of `getPos` (line 161). -/
noncomputable def rawM (idx : Fin 8) (T : ℝ) : ℝ := lOf idx T - pomOf idx T

/-- The computation of `getPos` after option reading and planet resolution
(lines 144-192), as a function of the three toggles, the resolved index and
the time argument. -/
noncomputable def getPosCore (unix_time icrf circular : Bool) (idx : Fin 8) (t : ℝ) :
    ℝ × ℝ × ℝ :=
  let T := computeT unix_time t
  let a := aOf idx T
  let e := eOf idx T
  let I := iOf idx T
  let w_line := pomOf idx T
  let om := omOf idx T
  let w := w_line - om
  let M := wrapM (rawM idx T)
  let E := if circular = false then keplersEq M e else M
  let x := a * (Real.cos E - e)
  let y := a * Real.sqrt (1 - e * e) * Real.sin E
  let pos_ecl : ℝ × ℝ × ℝ :=
    ((Real.cos w * Real.cos om - Real.sin w * Real.sin om * Real.cos I) * x +
       (-Real.sin w * Real.cos om - Real.cos w * Real.sin om * Real.cos I) * y,
     (Real.cos w * Real.sin om + Real.sin w * Real.cos om * Real.cos I) * x +
       (-Real.sin w * Real.sin om + Real.cos w * Real.cos om * Real.cos I) * y,
     Real.sin w * Real.sin I * x + Real.cos w * Real.sin I * y)
  if icrf = false then pos_ecl
  else
    let eps_rad := 23.43928 * Real.pi / 180
    (pos_ecl.1,
     Real.cos eps_rad * pos_ecl.2.1 - Real.sin eps_rad * pos_ecl.2.2,
     Real.sin eps_rad * pos_ecl.2.1 + Real.cos eps_rad * pos_ecl.2.2)

/-- The array subscript `parameters[planet_idx]` succeeds exactly when the
resolved index is one of the eight integer keys; NaN (stringified key
`"NaN"`) and any other value miss the array and yield `undefined`. -/
noncomputable def idxOfJs : JsNumber → Option (Fin 8)
  | .nan => none
  | .val x =>
      if x = 0 then some 0 else if x = 1 then some 1 else if x = 2 then some 2
      else if x = 3 then some 3 else if x = 4 then some 4 else if x = 5 then some 5
      else if x = 6 then some 6 else if x = 7 then some 7 else none

/-- `planetPosition.getPos(planet, t, options)`. The result is
`Except.error e` when validation throws, `Except.ok none` when validation
passes but the resolved index misses the coefficient table (the subsequent
element access then crashes with a TypeError in JavaScript), and
`Except.ok (some v)` for a normal return of the 3-vector `v`. -/
noncomputable def getPos (planet : JsPlanetArg) (t : ℝ) (options : Option JsDict) :
    Except JsError (Option (ℝ × ℝ × ℝ)) :=
  let tg := getToggles options
  match resolvePlanet planet with
  | .error e => .error e
  | .ok r =>
      match idxOfJs r with
      | none => .ok none
      | some idx => .ok (some (getPosCore tg.1 tg.2.1 tg.2.2 idx t))

/-- The options object `{icrf: true}`. -/
def optsIcrfTrue : JsDict := fun k => if k = "icrf" then some true else none

/-- The options object `{icrf: false}`. -/
def optsIcrfFalse : JsDict := fun k => if k = "icrf" then some false else none

/-- The options object `{circular: true, unix_time: true, icrf: true}`. -/
def optsAllTrue : JsDict := fun k =>
  if k = "circular" then some true
  else if k = "unix_time" then some true
  else if k = "icrf" then some true
  else none

/-- An options object owning a property literally named `"undefined"`. -/
def optsUndefinedProp : JsDict := fun k => if k = undefinedKey then some false else none

/-- A time input at which Mercury's evaluated eccentricity
`0.20563593 + T * 0.00001906` is exactly zero. -/
noncomputable def mercuryZeroEccT : ℝ := 2000 - 100 * (0.20563593 / 0.00001906)

lemma getPos_congr_toggles (p : JsPlanetArg) (t : ℝ) (o₁ o₂ : Option JsDict)
    (h : getToggles o₁ = getToggles o₂) : getPos p t o₁ = getPos p t o₂ := by
  unfold getPos
  rw [h]

lemma getToggles_some (o : JsDict) :
    getToggles (some o) =
      ((o undefinedKey).isSome, (o undefinedKey).isSome, (o undefinedKey).isSome) := rfl

lemma getToggles_of_no_undefined (o : JsDict) (h : o undefinedKey = none) :
    getToggles (some o) = getToggles none := by
  rw [getToggles_some, h]
  rfl

lemma resolvePlanet_nan : resolvePlanet (.num .nan) = .ok .nan := by
  simp [resolvePlanet, jsRound, jsSub, jsAbs, jsGt, jsLt, jsGe]

/-- C1: contrary to the claim, the call `getPos(p, t, {icrf:true})` does not
return the obliquity-rotated vector: the option prologue reads the property
named `"undefined"` (never `"icrf"`), so both `{icrf:true}` and
`{icrf:false}` leave every toggle off and the call returns the same
unrotated ecliptic vector as the default call, for every planet argument
and every time. -/
theorem getPos_icrf_option_ignored (p : JsPlanetArg) (t : ℝ) :
    getPos p t (some optsIcrfTrue) = getPos p t none ∧
      getPos p t (some optsIcrfFalse) = getPos p t none := by
  constructor <;>
    refine getPos_congr_toggles _ _ _ _ (getToggles_of_no_undefined _ ?_) <;>
      simp [optsIcrfTrue, optsIcrfFalse, undefinedKey]

/-- C2: an options object that does not own a property named `"undefined"`
behaves exactly like passing no options (in particular the documented
`circular`, `unix_time` and `icrf` fields have no effect), while an options
object owning a (non-undefined-valued) property named `"undefined"` turns
all three toggles on simultaneously. -/
theorem getPos_options_only_undefined_key_matters (p : JsPlanetArg) (t : ℝ) (o : JsDict) :
    (o undefinedKey = none → getPos p t (some o) = getPos p t none) ∧
      (∀ b : Bool, o undefinedKey = some b → getToggles (some o) = (true, true, true)) := by
  constructor
  · intro h
    exact getPos_congr_toggles _ _ _ _ (getToggles_of_no_undefined _ h)
  · intro b h
    rw [getToggles_some, h]
    rfl

/-- C2 witness: with all three documented fields set (`{circular:true,
unix_time:true, icrf:true}`) the result is still the default-call result,
and the object `{undefined:false}` turns all three toggles on. -/
theorem getPos_options_only_undefined_key_matters_witness :
    (optsAllTrue undefinedKey = none ∧
        getPos (.num (.val 2)) 2000 (some optsAllTrue) = getPos (.num (.val 2)) 2000 none) ∧
      (optsUndefinedProp undefinedKey = some false ∧
        getToggles (some optsUndefinedProp) = (true, true, true)) := by
  have h₁ : optsAllTrue undefinedKey = none := by simp [optsAllTrue, undefinedKey]
  have h₂ : optsUndefinedProp undefinedKey = some false := by simp [optsUndefinedProp]
  exact ⟨⟨h₁, (getPos_options_only_undefined_key_matters (.num (.val 2)) 2000 optsAllTrue).1 h₁⟩,
    ⟨h₂, (getPos_options_only_undefined_key_matters (.num (.val 2)) 2000 optsUndefinedProp).2
      false h₂⟩⟩

/-- C3: evaluating the planet validation at the failing input NaN: contrary
to the claim (and the spec's validation taxonomy), the numeric argument NaN
raises no validation error at all — the fractional-index test and both range
tests are false on NaN, so `resolvePlanet` accepts it. -/
theorem resolvePlanet_nan_no_validation_error :
    resolvePlanet (.num .nan) = .ok .nan ∧
      ¬jsGt (jsAbs (jsSub (jsRound .nan) .nan)) (.val 0.0001) ∧
      ¬(jsLt (jsRound .nan) (.val 0) ∨ jsGe (jsRound .nan) (.val 8)) := by
  refine ⟨resolvePlanet_nan, ?_, ?_⟩ <;>
    simp [jsRound, jsSub, jsAbs, jsGt, jsLt, jsGe]

lemma planet_names_length : planet_names.length = 8 := rfl

lemma floor_natCast_add_half (n : ℕ) : ⌊(n : ℝ) + 1 / 2⌋ = n := by
  rw [show (n : ℝ) + 1 / 2 = 1 / 2 + ((n : ℤ) : ℝ) by push_cast; ring,
    Int.floor_add_int]
  norm_num

lemma resolvePlanet_int (i : Fin 8) :
    resolvePlanet (.num (.val ((i : ℕ) : ℝ))) = .ok (.val ((i : ℕ) : ℝ)) := by
  have hfl : ((⌊((i : ℕ) : ℝ) + 1 / 2⌋ : ℤ) : ℝ) = ((i : ℕ) : ℝ) := by
    rw [floor_natCast_add_half]
    push_cast
    ring
  have hlt : ((i : ℕ) : ℝ) < 8 := by exact_mod_cast i.isLt
  have hge : (0 : ℝ) ≤ ((i : ℕ) : ℝ) := by positivity
  unfold resolvePlanet
  simp only [jsRound, jsSub, jsAbs, jsGt, jsLt, jsGe, hfl]
  rw [if_neg (by norm_num), if_neg (not_or.mpr ⟨not_lt.mpr hge, not_le.mpr hlt⟩)]

lemma resolvePlanet_name (i : Fin 8) :
    resolvePlanet (.str (planet_names.get (Fin.cast planet_names_length.symm i))) =
      .ok (.val ((i : ℕ) : ℝ)) := by
  fin_cases i <;> rfl

lemma idxOfJs_int (i : Fin 8) : idxOfJs (.val ((i : ℕ) : ℝ)) = some i := by
  fin_cases i <;> norm_num [idxOfJs] <;> rfl

/-- C5: for every planet index `i` in `[0,7]` and the corresponding canonical
name (entry `i` of `planet_names`), and for every time and options value,
`getPos` returns identical results for the index call and the name call. -/
theorem getPos_index_name_agree (i : Fin 8) (t : ℝ) (opts : Option JsDict) :
    getPos (.num (.val ((i : ℕ) : ℝ))) t opts =
      getPos (.str (planet_names.get (Fin.cast planet_names_length.symm i))) t opts := by
  unfold getPos
  rw [resolvePlanet_int, resolvePlanet_name]

/-- C8: the centuries-since-J2000 variable `T` equals `(t - 2000)/100` when
the unix-time toggle is off, and `(MJD - 2451544.5)/36525` with
`MJD = (t*1000)/86400000 + 2440587.5` when it is on — i.e. the caller's `t`
is scaled by 1000 before the milliseconds-to-MJD conversion
`getJulianFromUnix`. -/
theorem computeT_spec (t : ℝ) :
    computeT false t = (t - 2000) / 100 ∧
      computeT true t = (getJulianFromUnix (t * 1000) - 2451544.5) / 36525 ∧
      computeT true t = ((t * 1000) / 86400000 + 2440587.5 - 2451544.5) / 36525 := by
  refine ⟨rfl, rfl, ?_⟩
  simp [computeT, getJulianFromUnix]

lemma param_0_1 : parameters 0 1 = 0.20563593 := rfl

lemma param_0_7 : parameters 0 7 = 0.00001906 := rfl

lemma param_0_3 : parameters 0 3 = 252.25032350 := rfl

lemma param_0_9 : parameters 0 9 = 149472.67411175 := rfl

lemma param_0_4 : parameters 0 4 = 77.45779628 := rfl

lemma param_0_10 : parameters 0 10 = 0.16047689 := rfl

lemma keplerStep_zero_ecc_fst (x : ℝ) (s : ℝ × ℝ) : (keplerStep x 0 s).1 = x := by
  simp [keplerStep]

lemma keplersEq_zero_ecc (x : ℝ) : keplersEq x 0 = x := by
  have h1 : (keplerIter x 0 1).1 = x := keplerStep_zero_ecc_fst x _
  have h2 : (keplerIter x 0 2).2 = 0 := by
    show (keplerStep x 0 (keplerIter x 0 1)).2 = 0
    simp [keplerStep, h1]
  have hne : {n | |(keplerIter x 0 n).2| ≤ tol}.Nonempty := by
    refine ⟨2, ?_⟩
    simp only [Set.mem_setOf_eq, h2, abs_zero, tol]
    norm_num
  have hmem := Nat.sInf_mem hne
  have h0 : sInf {n | |(keplerIter x 0 n).2| ≤ tol} ≠ 0 := by
    intro h
    rw [h] at hmem
    simp only [Set.mem_setOf_eq, keplerIter, keplerInit, tol] at hmem
    norm_num at hmem
  obtain ⟨m, hm⟩ := Nat.exists_eq_succ_of_ne_zero h0
  unfold keplersEq
  rw [hm]
  exact keplerStep_zero_ecc_fst x _

lemma keplerIter_zero_ecc_two (x : ℝ) : (keplerIter x 0 2).2 = 0 := by
  have h1 : (keplerIter x 0 1).1 = x := keplerStep_zero_ecc_fst x _
  show (keplerStep x 0 (keplerIter x 0 1)).2 = 0
  simp [keplerStep, h1]

lemma keplerHalts_zero_ecc (x : ℝ) : KeplerHalts x 0 := by
  refine ⟨2, ?_⟩
  rw [keplerIter_zero_ecc_two]
  norm_num [tol]

lemma abs_sin_sub_sin_le (a b : ℝ) : |Real.sin a - Real.sin b| ≤ |a - b| := by
  rw [Real.sin_sub_sin, abs_mul, abs_mul, abs_two]
  have h1 : |Real.sin ((a - b) / 2)| ≤ |(a - b) / 2| := Real.abs_sin_le_abs
  have h2 : |Real.cos ((a + b) / 2)| ≤ 1 := Real.abs_cos_le_one _
  have h3 : |(a - b) / 2| = |a - b| / 2 := by
    rw [abs_div]
    norm_num
  calc 2 * |Real.sin ((a - b) / 2)| * |Real.cos ((a + b) / 2)|
      ≤ 2 * |Real.sin ((a - b) / 2)| * 1 := by
        have hs : 0 ≤ 2 * |Real.sin ((a - b) / 2)| := by positivity
        exact mul_le_mul_of_nonneg_left h2 hs
    _ = 2 * |Real.sin ((a - b) / 2)| := by ring
    _ ≤ 2 * |(a - b) / 2| := by linarith
    _ = |a - b| := by
        rw [h3]
        ring

/-- C9: when the evaluated eccentricity is zero, the elliptical code path
(`E = keplersEq(M, e)`) and the circular code path (`E = M`) of `getPos`
produce the same 3-vector, whatever the other toggles, the planet and the
time. -/
theorem getPosCore_circular_irrelevant_of_zero_ecc (unix_time icrf : Bool) (idx : Fin 8)
    (t : ℝ) (h : eOf idx (computeT unix_time t) = 0) :
    getPosCore unix_time icrf false idx t = getPosCore unix_time icrf true idx t := by
  simp only [getPosCore, h]
  norm_num [keplersEq_zero_ecc]

/-- C9 witness: at the concrete time making Mercury's evaluated eccentricity
exactly zero, the circular and elliptical paths agree. -/
theorem getPosCore_circular_irrelevant_of_zero_ecc_witness :
    eOf 0 (computeT false mercuryZeroEccT) = 0 ∧
      getPosCore false false false 0 mercuryZeroEccT =
        getPosCore false false true 0 mercuryZeroEccT := by
  have h : eOf 0 (computeT false mercuryZeroEccT) = 0 := by
    unfold eOf computeT mercuryZeroEccT
    rw [param_0_1, param_0_7]
    norm_num
  exact ⟨h, getPosCore_circular_irrelevant_of_zero_ecc false false 0 mercuryZeroEccT h⟩

/-- Validation checks of the spec's example list: `getPos(8, 2000)` rejects
the out-of-range index. -/
theorem resolvePlanet_eight : resolvePlanet (.num (.val 8)) = .error .indexOutOfRange := by
  have hfl : (⌊(8 : ℝ) + 1 / 2⌋ : ℤ) = 8 := by
    rw [Int.floor_eq_iff]
    norm_num
  unfold resolvePlanet
  simp only [jsRound, jsSub, jsAbs, jsGt, jsLt, jsGe, hfl]
  rw [if_neg (by norm_num), if_pos (by norm_num)]

/-- Validation checks of the spec's example list: `getPos(2.3, 2000)` rejects
the fractional index. -/
theorem resolvePlanet_two_point_three :
    resolvePlanet (.num (.val 2.3)) = .error .fractionalIndex := by
  have hfl : (⌊(2.3 : ℝ) + 1 / 2⌋ : ℤ) = 2 := by
    rw [Int.floor_eq_iff]
    norm_num
  unfold resolvePlanet
  simp only [jsRound, jsSub, jsAbs, jsGt, jsLt, jsGe, hfl]
  rw [if_pos (by rw [abs_sub_comm, abs_of_pos] <;> norm_num)]

/-- Validation checks of the spec's example list: `getPos("pluto", 2000)`
rejects the unknown name. -/
theorem resolvePlanet_pluto : resolvePlanet (.str "pluto") = .error .unknownPlanetName := rfl

/-- Validation checks of the spec's example list: `getPos({}, 2000)` rejects
the non-number, non-string argument. -/
theorem resolvePlanet_object : resolvePlanet .other = .error .invalidPlanetType := rfl

/-- C6: whenever the Kepler solver's loop exits (which the spec itself notes
is not guaranteed in general), the returned eccentric anomaly `E` satisfies
the residual bound `|M - (E - e*sin E)| < 1e-5` for every eccentricity
`e ∈ [0, 0.5]` and mean anomaly `M ∈ (-π, π]`. -/
theorem keplersEq_residual_bound (M e : ℝ) (he0 : 0 ≤ e) (he : e ≤ 1 / 2)
    (_hM1 : -Real.pi < M) (_hM2 : M ≤ Real.pi) (hh : KeplerHalts M e) :
    |M - (keplersEq M e - e * Real.sin (keplersEq M e))| < 1e-5 := by
  have hne : {n | |(keplerIter M e n).2| ≤ tol}.Nonempty := hh
  have hmem := Nat.sInf_mem hne
  have h0 : sInf {n | |(keplerIter M e n).2| ≤ tol} ≠ 0 := by
    intro h
    rw [h] at hmem
    simp only [Set.mem_setOf_eq, keplerIter, keplerInit, tol] at hmem
    norm_num at hmem
  obtain ⟨m, hm⟩ := Nat.exists_eq_succ_of_ne_zero h0
  rw [hm] at hmem
  set y : ℝ := (keplerIter M e m).1 with hy
  set d : ℝ := (M - (y - e * Real.sin y)) / (1 - e * Real.cos y) with hd
  have hiter : keplerIter M e (m + 1) = (y + d, d) := rfl
  have habsd : |d| ≤ tol := by
    have : (keplerIter M e (m + 1)).2 = d := by rw [hiter]
    rwa [Set.mem_setOf_eq, this] at hmem
  have hEq : keplersEq M e = y + d := by
    unfold keplersEq
    rw [hm, hiter]
  have hcos : e * Real.cos y ≤ 1 / 2 := by
    have h1 : e * Real.cos y ≤ e * 1 := by
      have := Real.cos_le_one y
      nlinarith [Real.neg_one_le_cos y]
    linarith
  have hden : (1 : ℝ) / 2 ≤ 1 - e * Real.cos y := by linarith
  have hdenne : (1 : ℝ) - e * Real.cos y ≠ 0 := by linarith
  have hdx : d * (1 - e * Real.cos y) = M - (y - e * Real.sin y) := by
    rw [hd]
    exact div_mul_cancel₀ _ hdenne
  have hR : M - ((y + d) - e * Real.sin (y + d)) =
      e * (Real.sin (y + d) - Real.sin y - d * Real.cos y) := by
    linear_combination -hdx
  have hsin : |Real.sin (y + d) - Real.sin y| ≤ |d| := by
    have := abs_sin_sub_sin_le (y + d) y
    simpa using this
  have hdcos : |d * Real.cos y| ≤ |d| := by
    rw [abs_mul]
    nlinarith [Real.abs_cos_le_one y, abs_nonneg d]
  have hinner : |Real.sin (y + d) - Real.sin y - d * Real.cos y| ≤ 2 * |d| := by
    have h3 := abs_add (Real.sin (y + d) - Real.sin y) (-(d * Real.cos y))
    rw [abs_neg] at h3
    have h4 : Real.sin (y + d) - Real.sin y - d * Real.cos y =
        (Real.sin (y + d) - Real.sin y) + -(d * Real.cos y) := by ring
    rw [h4]
    linarith
  rw [hEq, hR, abs_mul, abs_of_nonneg he0]
  have htol : tol = 1e-6 := by norm_num [tol]
  rw [htol] at habsd
  nlinarith [abs_nonneg (Real.sin (y + d) - Real.sin y - d * Real.cos y), abs_nonneg d]

lemma abs_sin_sub_self (u : ℝ) (hu : |u| ≤ 1) : |Real.sin u - u| ≤ |u| ^ 3 / 4 := by
  rcases lt_trichotomy u 0 with h | h | h
  · have hpos : 0 < -u := by linarith
    have h1 : Real.sin (-u) < -u := Real.sin_lt hpos
    have hu1 : -u ≤ 1 := by
      rw [abs_of_neg h] at hu
      exact hu
    have h2 : -u - (-u) ^ 3 / 4 < Real.sin (-u) := Real.sin_gt_sub_cube hpos hu1
    rw [Real.sin_neg] at h1 h2
    rw [abs_of_neg h]
    have hgt : 0 < Real.sin u - u := by linarith
    rw [abs_of_pos hgt]
    linarith
  · simp [h]
  · have h1 : Real.sin u < u := Real.sin_lt h
    have hu1 : u ≤ 1 := by
      rw [abs_of_pos h] at hu
      exact hu
    have h2 : u - u ^ 3 / 4 < Real.sin u := Real.sin_gt_sub_cube h hu1
    rw [abs_of_pos h]
    have hneg : Real.sin u - u < 0 := by linarith
    rw [abs_of_neg hneg]
    linarith

lemma abs_two_sin_half_sub_self (D : ℝ) (hD : |D| ≤ 2) :
    |2 * Real.sin (D / 2) - D| ≤ |D| ^ 3 / 16 := by
  have hhalf : |D / 2| ≤ 1 := by
    rw [abs_div]
    norm_num
    linarith
  have h2 := abs_sin_sub_self (D / 2) hhalf
  have hrw : 2 * Real.sin (D / 2) - D = 2 * (Real.sin (D / 2) - D / 2) := by ring
  rw [hrw, abs_mul, abs_two]
  have h3 : |D / 2| ^ 3 = |D| ^ 3 / 8 := by
    rw [abs_div, abs_two]
    ring
  rw [h3] at h2
  linarith

lemma kepler_taylor (y D : ℝ) (hD : |D| ≤ 2) :
    |Real.sin (y + D) - Real.sin y - D * Real.cos y| ≤ D ^ 2 / 2 + |D| ^ 3 / 16 := by
  have e1 : (y + D - y) / 2 = D / 2 := by ring
  have e2 : (y + D + y) / 2 = y + D / 2 := by ring
  have hss : Real.sin (y + D) - Real.sin y = 2 * Real.sin (D / 2) * Real.cos (y + D / 2) := by
    rw [Real.sin_sub_sin, e1, e2]
  have e3 : (y + D / 2 + y) / 2 = y + D / 4 := by ring
  have e4 : (y + D / 2 - y) / 2 = D / 4 := by ring
  have hcc : Real.cos (y + D / 2) - Real.cos y =
      -2 * Real.sin (y + D / 4) * Real.sin (D / 4) := by
    rw [Real.cos_sub_cos, e3, e4]
  have hsD2 : |Real.sin (D / 2)| ≤ |D| / 2 := by
    have h := @Real.abs_sin_le_abs (D / 2)
    rwa [abs_div, abs_two] at h
  have hcabs : |Real.cos (y + D / 2) - Real.cos y| ≤ |D| / 2 := by
    rw [hcc, abs_mul, abs_mul]
    have hm2 : |(-2 : ℝ)| = 2 := by norm_num
    rw [hm2]
    have hs1 : |Real.sin (y + D / 4)| ≤ 1 := Real.abs_sin_le_one _
    have hs2 : |Real.sin (D / 4)| ≤ |D| / 4 := by
      have h := @Real.abs_sin_le_abs (D / 4)
      rwa [abs_div, show |(4 : ℝ)| = 4 by norm_num] at h
    nlinarith [abs_nonneg (Real.sin (y + D / 4)), abs_nonneg (Real.sin (D / 4)), abs_nonneg D]
  have hdecomp : Real.sin (y + D) - Real.sin y - D * Real.cos y =
      2 * Real.sin (D / 2) * (Real.cos (y + D / 2) - Real.cos y) +
        (2 * Real.sin (D / 2) - D) * Real.cos y := by
    rw [hss]
    ring
  have t1 : |2 * Real.sin (D / 2) * (Real.cos (y + D / 2) - Real.cos y)| ≤ D ^ 2 / 2 := by
    rw [abs_mul, abs_mul, abs_two]
    nlinarith [hsD2, hcabs, abs_nonneg (Real.sin (D / 2)),
      abs_nonneg (Real.cos (y + D / 2) - Real.cos y), abs_nonneg D, sq_abs D]
  have t2 : |(2 * Real.sin (D / 2) - D) * Real.cos y| ≤ |D| ^ 3 / 16 := by
    rw [abs_mul]
    have h1 := abs_two_sin_half_sub_self D hD
    have h2 : |Real.cos y| ≤ 1 := Real.abs_cos_le_one y
    nlinarith [abs_nonneg (2 * Real.sin (D / 2) - D)]
  calc |Real.sin (y + D) - Real.sin y - D * Real.cos y|
      = |2 * Real.sin (D / 2) * (Real.cos (y + D / 2) - Real.cos y) +
          (2 * Real.sin (D / 2) - D) * Real.cos y| := by rw [hdecomp]
    _ ≤ |2 * Real.sin (D / 2) * (Real.cos (y + D / 2) - Real.cos y)| +
          |(2 * Real.sin (D / 2) - D) * Real.cos y| := abs_add _ _
    _ ≤ D ^ 2 / 2 + |D| ^ 3 / 16 := by linarith

set_option maxHeartbeats 1000000 in
lemma kepler_residual_step (e y M : ℝ) (he0 : 0 ≤ e) (he : e ≤ 3 / 10)
    (hr : |M - (y - e * Real.sin y)| ≤ 13 / 10) :
    |M - ((y + (M - (y - e * Real.sin y)) / (1 - e * Real.cos y)) -
        e * Real.sin (y + (M - (y - e * Real.sin y)) / (1 - e * Real.cos y)))| ≤
      (1 / 2) * |M - (y - e * Real.sin y)| := by
  set F : ℝ := M - (y - e * Real.sin y) with hF
  set den : ℝ := 1 - e * Real.cos y with hden0
  have hdn : (7 : ℝ) / 10 ≤ den := by
    rw [hden0]
    nlinarith [Real.cos_le_one y, Real.neg_one_le_cos y]
  have hdenne : den ≠ 0 := by linarith
  set D : ℝ := F / den with hD0
  have hdx : D * den = F := div_mul_cancel₀ _ hdenne
  have hRid : M - ((y + D) - e * Real.sin (y + D)) =
      e * (Real.sin (y + D) - Real.sin y - D * Real.cos y) := by
    rw [hden0] at hdx
    linear_combination -hdx
  have hDabs : |D| ≤ (10 / 7) * |F| := by
    rw [hD0, abs_div, abs_of_pos (by linarith : (0 : ℝ) < den)]
    rw [div_le_iff (by linarith : (0 : ℝ) < den)]
    nlinarith [abs_nonneg F]
  have hD2 : |D| ≤ 2 := by nlinarith [abs_nonneg F, abs_nonneg D]
  have htay := kepler_taylor y D hD2
  have hgoal_eq : |M - ((y + D) - e * Real.sin (y + D))| =
      e * |Real.sin (y + D) - Real.sin y - D * Real.cos y| := by
    rw [hRid, abs_mul, abs_of_nonneg he0]
  rw [hgoal_eq]
  have hA2 : |D| ^ 2 ≤ ((10 / 7) * |F|) ^ 2 := pow_le_pow_left (abs_nonneg D) hDabs 2
  have hA3 : |D| ^ 3 ≤ ((10 / 7) * |F|) ^ 3 := pow_le_pow_left (abs_nonneg D) hDabs 3
  have hF2 : |F| ^ 2 ≤ (13 / 10) * |F| := by nlinarith [abs_nonneg F]
  have hF3 : |F| ^ 3 ≤ (169 / 100) * |F| := by nlinarith [hF2, abs_nonneg F]
  have hinner : |Real.sin (y + D) - Real.sin y - D * Real.cos y| ≤ (4485 / 2744) * |F| := by
    nlinarith [htay, hA2, hA3, hF2, hF3, sq_abs D]
  calc e * |Real.sin (y + D) - Real.sin y - D * Real.cos y|
      ≤ (3 / 10) * ((4485 / 2744) * |F|) := by
        nlinarith [abs_nonneg (Real.sin (y + D) - Real.sin y - D * Real.cos y), abs_nonneg F]
    _ ≤ (1 / 2) * |F| := by nlinarith [abs_nonneg F]

lemma keplerIter_step_abs (M e : ℝ) (he0 : 0 ≤ e) (he : e ≤ 3 / 10) (n : ℕ) :
    |(keplerIter M e (n + 1)).2| ≤
      (10 / 7) * |M - ((keplerIter M e n).1 - e * Real.sin ((keplerIter M e n).1))| := by
  have hstep2 : (keplerIter M e (n + 1)).2 =
      (M - ((keplerIter M e n).1 - e * Real.sin ((keplerIter M e n).1))) /
        (1 - e * Real.cos ((keplerIter M e n).1)) := rfl
  have hdn : (7 : ℝ) / 10 ≤ 1 - e * Real.cos ((keplerIter M e n).1) := by
    nlinarith [Real.cos_le_one ((keplerIter M e n).1), Real.neg_one_le_cos ((keplerIter M e n).1)]
  rw [hstep2, abs_div, abs_of_pos (by linarith : (0 : ℝ) < 1 - e * Real.cos ((keplerIter M e n).1))]
  rw [div_le_iff (by linarith : (0 : ℝ) < 1 - e * Real.cos ((keplerIter M e n).1))]
  nlinarith [abs_nonneg (M - ((keplerIter M e n).1 - e * Real.sin ((keplerIter M e n).1)))]

lemma kepler_residual_decay (M e : ℝ) (he0 : 0 ≤ e) (he : e ≤ 3 / 10) (n : ℕ) :
    |M - ((keplerIter M e n).1 - e * Real.sin ((keplerIter M e n).1))| ≤
      (13 / 10) * (1 / 2) ^ n := by
  induction n with
  | zero =>
      have hy0 : (keplerIter M e 0).1 = M + Real.sin M := rfl
      rw [hy0]
      have h1 : M - ((M + Real.sin M) - e * Real.sin (M + Real.sin M)) =
          e * Real.sin (M + Real.sin M) - Real.sin M := by ring
      rw [h1]
      have h2 : |e * Real.sin (M + Real.sin M) - Real.sin M| ≤
          |e * Real.sin (M + Real.sin M)| + |Real.sin M| := abs_sub _ _
      have h3 : |e * Real.sin (M + Real.sin M)| ≤ e := by
        rw [abs_mul, abs_of_nonneg he0]
        nlinarith [Real.abs_sin_le_one (M + Real.sin M)]
      have h4 : |Real.sin M| ≤ 1 := Real.abs_sin_le_one M
      simp only [pow_zero, mul_one]
      linarith
  | succ k ih =>
      have hpow : ((1 : ℝ) / 2) ^ k ≤ 1 := by
        apply pow_le_one₀ <;> norm_num
      have hk13 : |M - ((keplerIter M e k).1 - e * Real.sin ((keplerIter M e k).1))| ≤
          13 / 10 := by nlinarith
      have hstep := kepler_residual_step e ((keplerIter M e k).1) M he0 he hk13
      have hy1 : (keplerIter M e (k + 1)).1 =
          (keplerIter M e k).1 +
            (M - ((keplerIter M e k).1 - e * Real.sin ((keplerIter M e k).1))) /
              (1 - e * Real.cos ((keplerIter M e k).1)) := rfl
      rw [hy1]
      calc |M - (((keplerIter M e k).1 +
              (M - ((keplerIter M e k).1 - e * Real.sin ((keplerIter M e k).1))) /
                (1 - e * Real.cos ((keplerIter M e k).1))) -
            e * Real.sin ((keplerIter M e k).1 +
              (M - ((keplerIter M e k).1 - e * Real.sin ((keplerIter M e k).1))) /
                (1 - e * Real.cos ((keplerIter M e k).1))))|
          ≤ (1 / 2) * |M - ((keplerIter M e k).1 - e * Real.sin ((keplerIter M e k).1))| :=
            hstep
        _ ≤ (1 / 2) * ((13 / 10) * (1 / 2) ^ k) := by linarith
        _ = (13 / 10) * (1 / 2) ^ (k + 1) := by ring

/-- C7 (supporting half): for every mean anomaly and every eccentricity
`e ∈ [0, 0.3]` the Newton loop of `keplersEq` terminates — the residual
halves at every step, so by iteration 22 the tested step size is below the
tolerance. The claim's other half (existence of non-terminating inputs) is
not settled here. -/
theorem keplerHalts_of_small_ecc (M e : ℝ) (he0 : 0 ≤ e) (he : e ≤ 3 / 10) :
    KeplerHalts M e := by
  refine ⟨22, ?_⟩
  have h21 := kepler_residual_decay M e he0 he 21
  have hD := keplerIter_step_abs M e he0 he 21
  have hfin : |(keplerIter M e 22).2| ≤ (10 / 7) * ((13 / 10) * (1 / 2) ^ 21) := by
    calc |(keplerIter M e 22).2|
        ≤ (10 / 7) * |M - ((keplerIter M e 21).1 - e * Real.sin ((keplerIter M e 21).1))| := hD
      _ ≤ (10 / 7) * ((13 / 10) * (1 / 2) ^ 21) := by linarith
  have : (10 / 7 : ℝ) * ((13 / 10) * (1 / 2) ^ 21) ≤ tol := by
    rw [show tol = 1e-6 from by norm_num [tol]]
    norm_num
  linarith

/-- C7 (supporting half): for every mean anomaly and every eccentricity
`e ∈ [0, 0.3]` with terminating loop, the halting index of `keplersEq` and
hence its return value are well defined; combined with
`keplerHalts_of_small_ecc` the solver is total on typical planetary
inputs. -/
theorem keplersEq_defined_of_small_ecc (M e : ℝ) (he0 : 0 ≤ e) (he : e ≤ 3 / 10) :
    ∃ n, n = sInf {k | |(keplerIter M e k).2| ≤ tol} ∧ |(keplerIter M e n).2| ≤ tol ∧
      keplersEq M e = (keplerIter M e n).1 := by
  have hh : {k | |(keplerIter M e k).2| ≤ tol}.Nonempty := keplerHalts_of_small_ecc M e he0 he
  exact ⟨sInf _, rfl, Nat.sInf_mem hh, rfl⟩

/-- C6 witness: at `M = 0`, `e = 0` the loop halts and the residual bound
holds. -/
theorem keplersEq_residual_bound_witness :
    (0 : ℝ) ≤ 0 ∧ (0 : ℝ) ≤ 1 / 2 ∧ -Real.pi < (0 : ℝ) ∧ (0 : ℝ) ≤ Real.pi ∧
      KeplerHalts 0 0 ∧
      |(0 : ℝ) - (keplersEq 0 0 - 0 * Real.sin (keplersEq 0 0))| < 1e-5 :=
  ⟨le_refl 0, by norm_num, neg_lt_zero.mpr Real.pi_pos, Real.pi_nonneg,
    keplerHalts_zero_ecc 0,
    keplersEq_residual_bound 0 0 (le_refl 0) (by norm_num)
      (neg_lt_zero.mpr Real.pi_pos) Real.pi_nonneg (keplerHalts_zero_ecc 0)⟩

/-- C4 counterexample: at planet Mercury and time t = 1900 (T = -1) the raw
mean anomaly is below -π, and since the JavaScript `%` is a
truncated-division remainder taking the dividend's sign, the wrapped value
lies below -π as well: it is not in the claimed interval (-π, π]. -/
theorem wrapM_mercury_1900_outside_Ioc :
    wrapM (rawM 0 (computeT false 1900)) ∉ Set.Ioc (-Real.pi) Real.pi := by
  have hpi := Real.pi_pos
  have hT : computeT false 1900 = -1 := by norm_num [computeT]
  have hraw : rawM 0 (computeT false 1900) = -149297.72110764 / 180 * Real.pi := by
    rw [hT]
    unfold rawM lOf pomOf
    rw [param_0_3, param_0_9, param_0_4, param_0_10]
    ring
  have hdiv : (rawM 0 (computeT false 1900) + Real.pi) / (2 * Real.pi) =
      (-149297.72110764 / 180 + 1) / 2 := by
    rw [hraw]
    field_simp
    ring
  have hceil : ⌈((-149297.72110764 / 180 + 1) / 2 : ℝ)⌉ = -414 := by
    rw [Int.ceil_eq_iff]
    norm_num
  have hle : wrapM (rawM 0 (computeT false 1900)) ≤ -Real.pi := by
    unfold wrapM jsRem jsTrunc
    rw [hdiv, if_neg (by norm_num), hceil, hraw]
    push_cast
    nlinarith
  intro hmem
  exact absurd hmem.1 (not_lt.mpr hle)

/-- C4 (amended): the mean anomaly is wrapped by
`M = ((M + π) % (2π)) - π` with JavaScript's truncated-division remainder,
and the wrapped value lies in the open interval (-3π, π) — not always in
(-π, π]. -/
theorem wrapM_range (M : ℝ) : -(3 * Real.pi) < wrapM M ∧ wrapM M < Real.pi := by
  have hpi := Real.pi_pos
  unfold wrapM jsRem jsTrunc
  set q : ℝ := (M + Real.pi) / (2 * Real.pi) with hq
  have hMq : M + Real.pi = 2 * Real.pi * q := by
    rw [hq]
    field_simp
  by_cases h : 0 ≤ q
  · rw [if_pos h]
    have h1 : (⌊q⌋ : ℝ) ≤ q := Int.floor_le q
    have h2 : q < ⌊q⌋ + 1 := Int.lt_floor_add_one q
    constructor <;> nlinarith
  · rw [if_neg h]
    have h1 : q ≤ (⌈q⌉ : ℝ) := Int.le_ceil q
    have h2 : (⌈q⌉ : ℝ) < q + 1 := Int.ceil_lt_add_one q
    constructor <;> nlinarith

/-- C10: the numeric planet argument NaN passes validation (every comparison
in the two checks is false on NaN), and the coefficient table is then
indexed with NaN, which misses the array: `getPos(NaN, t, opts)` reaches the
out-of-bounds table access for every `t` and every options value. -/
theorem getPos_nan_passes_validation_out_of_bounds :
    resolvePlanet (.num .nan) = .ok .nan ∧ idxOfJs .nan = none ∧
      ∀ (t : ℝ) (opts : Option JsDict), getPos (.num .nan) t opts = .ok none := by
  refine ⟨resolvePlanet_nan, rfl, ?_⟩
  intro t opts
  unfold getPos
  rw [resolvePlanet_nan]
  rfl

